import Mathlib

/-!
Verification development for the scrobblarr webhook relay (src/app.py).

The file shallowly embeds the decision pipeline of the program: configuration
snapshots and their reload (load_config), the watched-event store backed by the
sqlite table created in init_db (INSERT OR IGNORE against a UNIQUE rating_key
column), the Sonarr deletion workflow (delete_episode), the policy evaluation
over series_settings, and the /webhook request handler (webhook).

Python dictionary values that may be absent are modelled as Option; JSON
objects used as ordered mappings are association lists in insertion order;
exceptions raised by the Python code are modelled explicitly (DelErr) and the
try/except blocks of the source become the corresponding catch structure.
Remote HTTP behaviour is a parameter (Remote): each outbound request either
raises a network error or returns a status code and a parsed body, matching
the requests library where raise_for_status raises exactly for status >= 400
and where the responses of the DELETE and PUT calls are never inspected.
-/

set_option autoImplicit false

/-- The sonarr section of config.json: both keys may be absent, in which case
the subscript accesses in delete_episode (lines 105-106) raise KeyError. -/
structure SonarrCfg where
  url : Option String
  api_key : Option String
deriving Repr, DecidableEq

/-- The process-wide CONFIG dictionary (a JSON object).  Absent keys are none;
series_settings maps series names to override objects, kept in insertion
order, each override being a JSON object whose grace_days key may be absent. -/
structure Config where
  sonarr : Option SonarrCfg
  unmonitor_after_delete : Option Bool
  grace_days : Option Int
  series_settings : Option (List (String × List (String × Int)))
deriving Repr, DecidableEq

/-- The zero-value configuration: CONFIG = \x7b\x7d at line 59, active until the
first successful load. -/
def emptyConfig : Config := ⟨none, none, none, none⟩

/-- Python str.lower, mapped over the underlying character list.  Stated
recursively over the characters so that concrete instances evaluate inside
the kernel; on the ASCII series titles at issue it agrees with the runtime
lowercasing the source relies on. -/
def lowerStr (s : String) : String := ⟨s.data.map Char.toLower⟩

/-- Exact-key lookup in a JSON object kept as an insertion-ordered association
list: the semantics of the Python dict get. -/
def assocFind {α : Type} (l : List (String × α)) (k : String) : Option α :=
  match l with
  | [] => none
  | (k', v) :: rest => if k' == k then some v else assocFind rest k

/-- Line 179: CONFIG.get("series_settings", \x7b\x7d).get(series).  The series
argument is md.get("grandparentTitle") and may be None, in which case the dict
get finds nothing (JSON object keys are strings). -/
def resolve_override (cfg : Config) (series : Option String) :
    Option (List (String × Int)) :=
  match series with
  | none => none
  | some s => assocFind (cfg.series_settings.getD []) s

/-- Python truthiness of the override value at lines 180 and 185: None and the
empty dict are falsy. -/
def override_truthy (o : Option (List (String × Int))) : Bool :=
  match o with
  | none => false
  | some d => !d.isEmpty

/-- Line 185: grace_days = override.get("grace_days") if override else
CONFIG.get("grace_days", 2).  The result is none when a truthy override lacks
the grace_days key. -/
def effective_grace (cfg : Config) (series : Option String) : Option Int :=
  let o := resolve_override cfg series
  if override_truthy o then assocFind (o.getD []) "grace_days"
  else some (cfg.grace_days.getD 2)

/-- Stated from the words of the spec, section 4.4, for comparison with the
code's effective_grace: exact-match lookup first, and if absent a
case-insensitive scan over all keys in insertion order, the first match
winning; the matched entry's grace_days is the effective value, otherwise the
global grace_days (default 2). -/
def spec_resolve_override (settings : List (String × List (String × Int)))
    (series : Option String) : Option (List (String × Int)) :=
  match series with
  | none => none
  | some s =>
    match assocFind settings s with
    | some d => some d
    | none => (settings.find? (fun kv => lowerStr kv.1 == lowerStr s)).map (·.2)

/-- Stated from the words of the spec, section 4.4: the effective grace period
under exact-then-case-insensitive override resolution. -/
def spec_effective_grace (cfg : Config) (series : Option String) : Option Int :=
  match spec_resolve_override (cfg.series_settings.getD []) series with
  | some d => assocFind d "grace_days"
  | none => some (cfg.grace_days.getD 2)

/-- Log lines of interest to the specification, by emitting site. -/
inductive LogMsg where
  | configReloaded
  | configLoadFailed
  | seriesNotFound (series : Option String)
  | episodeNotFound (season episode : Option Int)
  | deletedFile
  | noFileToDelete
  | unmonitored
  | sonarrError
deriving Repr, DecidableEq

/-- Python exceptions that the code of delete_episode can raise: KeyError from
a subscript on a dict missing the key, AttributeError from calling lower() on
None, a requests network exception, and the HTTPError from raise_for_status. -/
inductive DelErr where
  | keyError
  | attrError
  | netError
  | httpError (status : Nat)
deriving Repr, DecidableEq

/-- Outcome of one outbound HTTP request: the requests call itself raises, or
a response with a status code and a parsed body comes back. -/
inductive NetResult (α : Type) where
  | netErr
  | resp (status : Nat) (body : α)
deriving Repr, DecidableEq

/-- One element of the series list returned by GET /api/v3/series; a missing
field makes the corresponding subscript raise KeyError. -/
structure RemoteSeries where
  title : Option String
  id : Option Int
deriving Repr, DecidableEq

/-- One element of the episode list returned by GET /api/v3/episode; hasFile
is read with get (no raise), the other fields with subscripts. -/
structure RemoteEpisode where
  seasonNumber : Option Int
  episodeNumber : Option Int
  hasFile : Option Bool
  episodeFileId : Option Int
  id : Option Int
deriving Repr, DecidableEq

/-- The behaviour of the remote library manager during one delete_episode
invocation: one entry per outbound request the code can make. -/
structure Remote where
  seriesRes : NetResult (List RemoteSeries)
  episodesRes : NetResult (List RemoteEpisode)
  deleteRes : NetResult Unit
  putRes : NetResult Unit
deriving Repr, DecidableEq

/-- Outbound remote calls, in the order the workflow attempts them. -/
inductive RemoteCall where
  | getSeries
  | getEpisodes (seriesId : Int)
  | deleteFile (fileId : Int)
  | putEpisode (episodeId : Int)
deriving Repr, DecidableEq

/-- Result of running the body of delete_episode (the try block, lines
104-134): the remote calls attempted, the log lines emitted, and the
exception about to reach the except clause, if any. -/
structure DelRun where
  calls : List RemoteCall
  logs : List LogMsg
  err : Option DelErr
deriving Repr, DecidableEq

/-- Line 112: next((s for s in series_data if s["title"].lower() ==
series.lower()), None).  The generator raises KeyError on an entry without a
title and AttributeError when series is None, but only once an entry is
examined; an exhausted generator yields None. -/
def findSeries (l : List RemoteSeries) (series : Option String) :
    Except DelErr (Option RemoteSeries) :=
  match l with
  | [] => .ok none
  | s :: rest =>
    match s.title with
    | none => .error .keyError
    | some t =>
      match series with
      | none => .error .attrError
      | some sv =>
        if lowerStr t == lowerStr sv then .ok (some s) else findSeries rest series

/-- Line 120: next((ep for ep in episode_data if ep["seasonNumber"] == season
and ep["episodeNumber"] == episode), None).  The conjunction short-circuits,
so episodeNumber is only read when the season matched; comparing an int field
against a None argument is False in Python, not an error. -/
def findEpisode (l : List RemoteEpisode) (season episode : Option Int) :
    Except DelErr (Option RemoteEpisode) :=
  match l with
  | [] => .ok none
  | e :: rest =>
    match e.seasonNumber with
    | none => .error .keyError
    | some sn =>
      if some sn == season then
        match e.episodeNumber with
        | none => .error .keyError
        | some en =>
          if some en == episode then .ok (some e)
          else findEpisode rest season episode
      else findEpisode rest season episode

/-- Lines 125-134: the file-delete and unmonitor steps once an episode
matched.  The DELETE and PUT responses are never status-checked; only a
network exception from them aborts. -/
def deletePhase (cfg : Config) (env : Remote) (m : RemoteEpisode) :
    List RemoteCall × List LogMsg × Option DelErr :=
  let fileStep : List RemoteCall × List LogMsg × Option DelErr :=
    if m.hasFile.getD false then
      match m.episodeFileId with
      | none => ([], [], some .keyError)
      | some fid =>
        match env.deleteRes with
        | .netErr => ([.deleteFile fid], [], some .netError)
        | .resp _ _ => ([.deleteFile fid], [.deletedFile], none)
    else ([], [.noFileToDelete], none)
  match fileStep with
  | (cs, ls, some e) => (cs, ls, some e)
  | (cs, ls, none) =>
    if cfg.unmonitor_after_delete.getD true then
      match m.id with
      | none => (cs, ls, some .keyError)
      | some eid =>
        match env.putRes with
        | .netErr => (cs ++ [.putEpisode eid], ls, some .netError)
        | .resp _ _ => (cs ++ [.putEpisode eid], ls ++ [.unmonitored], none)
    else (cs, ls, none)

/-- The try block of delete_episode, lines 104-134.  raise_for_status raises
exactly when the status is at least 400. -/
def delete_episode_run (cfg : Config) (env : Remote) (series : Option String)
    (season episode : Option Int) : DelRun :=
  match cfg.sonarr with
  | none => ⟨[], [], some .keyError⟩
  | some sc =>
    match sc.api_key with
    | none => ⟨[], [], some .keyError⟩
    | some _ =>
      match sc.url with
      | none => ⟨[], [], some .keyError⟩
      | some _ =>
        match env.seriesRes with
        | .netErr => ⟨[.getSeries], [], some .netError⟩
        | .resp st body =>
          if 400 ≤ st then ⟨[.getSeries], [], some (.httpError st)⟩
          else
            match findSeries body series with
            | .error e => ⟨[.getSeries], [], some e⟩
            | .ok none => ⟨[.getSeries], [.seriesNotFound series], none⟩
            | .ok (some ms) =>
              match ms.id with
              | none => ⟨[.getSeries], [], some .keyError⟩
              | some sid =>
                match env.episodesRes with
                | .netErr => ⟨[.getSeries, .getEpisodes sid], [], some .netError⟩
                | .resp st2 eps =>
                  if 400 ≤ st2 then
                    ⟨[.getSeries, .getEpisodes sid], [], some (.httpError st2)⟩
                  else
                    match findEpisode eps season episode with
                    | .error e => ⟨[.getSeries, .getEpisodes sid], [], some e⟩
                    | .ok none =>
                      ⟨[.getSeries, .getEpisodes sid],
                        [.episodeNotFound season episode], none⟩
                    | .ok (some m) =>
                      match deletePhase cfg env m with
                      | (cs, ls, e) =>
                        ⟨[.getSeries, .getEpisodes sid] ++ cs, ls, e⟩

/-- delete_episode as observed from outside: the except clause at line 135
catches every exception of the body, logs it as an error, and falls off the
end of the function; the calls already attempted stay attempted. -/
def delete_episode (cfg : Config) (env : Remote) (series : Option String)
    (season episode : Option Int) : List RemoteCall :=
  (delete_episode_run cfg env series season episode).calls

/-- Log output of a delete_episode invocation, the except clause included. -/
def delete_episode_logs (cfg : Config) (env : Remote) (series : Option String)
    (season episode : Option Int) : List LogMsg :=
  let r := delete_episode_run cfg env series season episode
  r.logs ++ (match r.err with | some _ => [.sonarrError] | none => [])

/-- The caller's view of delete_episode: the try/except of lines 104-136
means every run returns normally, whatever the body raised. -/
def delete_episode_caught (cfg : Config) (env : Remote) (series : Option String)
    (season episode : Option Int) : Except DelErr (List RemoteCall × List LogMsg) :=
  .ok (delete_episode cfg env series season episode,
       delete_episode_logs cfg env series season episode)

/-- A request outcome that aborts when status-checked: a network exception or
a status that raise_for_status rejects. -/
def isHttpFail {α : Type} : NetResult α → Bool
  | .netErr => true
  | .resp st _ => 400 ≤ st

/-- One row of the watched table created by init_db (lines 89-98): rating_key
TEXT UNIQUE, the remaining columns untyped payload; NULLs are permitted. -/
structure Row where
  rating_key : Option String
  series : Option String
  season : Option Int
  episode : Option Int
  watched_at : Int
deriving Repr, DecidableEq

/-- Whether an INSERT of a row with the given rating_key conflicts with the
UNIQUE constraint: under SQLite semantics NULL values are all distinct, so
only a present key can conflict, and only with an equal present key. -/
def ratingKeyConflict (db : List Row) (rk : Option String) : Bool :=
  match rk with
  | none => false
  | some k => db.any (fun r => r.rating_key == some k)

/-- Lines 172-175: INSERT OR IGNORE INTO watched; a conflicting row makes the
statement a silent no-op, otherwise the row is appended. -/
def insertOrIgnore (db : List Row) (row : Row) : List Row :=
  if ratingKeyConflict db row.rating_key then db else db ++ [row]

/-- Number of stored rows carrying the given rating_key. -/
def countKey (db : List Row) (k : String) : Nat :=
  (db.filter (fun r => r.rating_key == some k)).length

/-- The Metadata object of a payload; every field may be absent. -/
structure Metadata where
  librarySectionType : Option String
  grandparentTitle : Option String
  parentIndex : Option Int
  index : Option Int
  ratingKey : Option String
  lastViewedAt : Option Int
deriving Repr, DecidableEq

/-- An inbound webhook payload: the event field and the Metadata object. -/
structure Payload where
  event : Option String
  metadata : Option Metadata
deriving Repr, DecidableEq

/-- The empty dict default of payload.get("Metadata", \x7b\x7d) at line 157. -/
def emptyMetadata : Metadata := ⟨none, none, none, none, none, none⟩

/-- Metadata extraction at line 157. -/
def mdOf (p : Payload) : Metadata := p.metadata.getD emptyMetadata

/-- The row the handler inserts at lines 162-175, now being the current epoch
time used as the lastViewedAt default. -/
def rowOf (md : Metadata) (now : Int) : Row :=
  ⟨md.ratingKey, md.grandparentTitle, md.parentIndex, md.index,
   md.lastViewedAt.getD now⟩

/-- Outcome of the payload-parsing step, lines 141-145: the JSON decoding
raised, or it produced a value, none standing for a falsy payload (absent,
null or the empty object) which line 147 filters out. -/
inductive ParseResult where
  | parseError
  | parsed (p : Option Payload)
deriving Repr, DecidableEq

/-- Everything observable about one handled request: the HTTP response, the
watched store afterwards, the delete_episode invocations with their
arguments, and the remote calls those invocations attempted. -/
structure HandlerResult where
  status : Nat
  body : String
  db : List Row
  deletions : List (Option String × Option Int × Option Int)
  calls : List RemoteCall
deriving Repr, DecidableEq

/-- A response that changes nothing: status 200, empty body, store
untouched, no deletion workflow invoked. -/
def noEffect (db : List Row) : HandlerResult := ⟨200, "", db, [], []⟩

/-- The webhook handler, lines 138-193, as a function of the active config,
the remote behaviour, the current time, the store contents and the parse
outcome.  Every return statement of the source answers 200 with an empty
body, and the except clause at line 190 turns any raised exception into the
same answer. -/
def webhook (cfg : Config) (env : Remote) (now : Int) (db : List Row)
    (req : ParseResult) : HandlerResult :=
  match req with
  | .parseError => noEffect db
  | .parsed none => noEffect db
  | .parsed (some p) =>
    if p.event = some "media.scrobble" then
      if (mdOf p).librarySectionType = some "show" then
        let md := mdOf p
        let db1 := insertOrIgnore db (rowOf md now)
        if effective_grace cfg md.grandparentTitle = some 0 then
          ⟨200, "", db1, [(md.grandparentTitle, md.parentIndex, md.index)],
           delete_episode cfg env md.grandparentTitle md.parentIndex md.index⟩
        else ⟨200, "", db1, [], []⟩
      else noEffect db
    else noEffect db

/-- Outcome of reading and decoding config.json inside load_config. -/
inductive ConfigRead where
  | openError
  | decodeError
  | ok (c : Config)
deriving Repr, DecidableEq

/-- load_config, lines 61-68: the global CONFIG is assigned only after
json.load succeeded, so either failure leaves the current snapshot in place;
the except clause logs the error and returns normally. -/
def load_config (current : Config) (r : ConfigRead) : Config × List LogMsg :=
  match r with
  | .openError => (current, [.configLoadFailed])
  | .decodeError => (current, [.configLoadFailed])
  | .ok c => (c, [.configReloaded])

/-! Theorems about the pipeline. -/

/-- For a qualifying scrobble event, the handler's deletion decision: the
resulting db write aside, the deletion workflow is invoked with the event's
series, season and episode exactly when the effective grace period is 0. -/
theorem webhook_db_insert (cfg : Config) (env : Remote) (now : Int)
    (db : List Row) (p : Payload)
    (hev : p.event = some "media.scrobble")
    (hshow : (mdOf p).librarySectionType = some "show") :
    (webhook cfg env now db (.parsed (some p))).db
      = insertOrIgnore db (rowOf (mdOf p) now) := by
  by_cases hg : effective_grace cfg (mdOf p).grandparentTitle = some 0 <;>
    simp [webhook, hev, hshow, hg]

/-- C1: for every qualifying scrobble event, the handler invokes
delete_episode if and only if the effective grace_days for the event's series
is 0; a positive or missing effective value yields no deletion call. -/
theorem webhook_deletes_iff_grace_zero (cfg : Config) (env : Remote) (now : Int)
    (db : List Row) (p : Payload)
    (hev : p.event = some "media.scrobble")
    (hshow : (mdOf p).librarySectionType = some "show") :
    (webhook cfg env now db (.parsed (some p))).deletions
      = (if effective_grace cfg (mdOf p).grandparentTitle = some 0
         then [((mdOf p).grandparentTitle, (mdOf p).parentIndex, (mdOf p).index)]
         else []) := by
  by_cases hg : effective_grace cfg (mdOf p).grandparentTitle = some 0 <;>
    simp [webhook, hev, hshow, hg]

/-- Witness for C1: with a global grace_days of 0 and no override, a concrete
scrobble event produces exactly one deletion invocation. -/
theorem webhook_deletes_iff_grace_zero_witness :
    (webhook ⟨none, none, some 0, none⟩ ⟨.netErr, .netErr, .netErr, .netErr⟩ 0 []
        (.parsed (some ⟨some "media.scrobble",
          some ⟨some "show", some "Foo", some 1, some 2, some "abc", some 1000⟩⟩))).deletions
      = [(some "Foo", some 1, some 2)] := by
  rw [webhook_deletes_iff_grace_zero ⟨none, none, some 0, none⟩
        ⟨.netErr, .netErr, .netErr, .netErr⟩ 0 []
        ⟨some "media.scrobble",
          some ⟨some "show", some "Foo", some 1, some 2, some "abc", some 1000⟩⟩
        rfl rfl]
  decide

/-- C3: every inbound POST to /webhook is answered 200 with an empty body,
whatever the parse outcome, event type or internal failure. -/
theorem webhook_always_ok (cfg : Config) (env : Remote) (now : Int)
    (db : List Row) (req : ParseResult) :
    (webhook cfg env now db req).status = 200
      ∧ (webhook cfg env now db req).body = "" := by
  cases req with
  | parseError => exact ⟨rfl, rfl⟩
  | parsed o =>
    cases o with
    | none => exact ⟨rfl, rfl⟩
    | some p =>
      by_cases he : p.event = some "media.scrobble"
      · by_cases hs : (mdOf p).librarySectionType = some "show"
        · by_cases hg : effective_grace cfg (mdOf p).grandparentTitle = some 0 <;>
            simp [webhook, he, hs, hg, noEffect]
        · simp [webhook, he, hs, noEffect]
      · simp [webhook, he, noEffect]

/-- C6: recording the same rating_key twice leaves exactly one stored row;
the second insert is a silent no-op that neither duplicates the row nor
overwrites any column written by the first. -/
theorem record_idempotent (db : List Row) (r1 r2 : Row) (k : String)
    (h1 : r1.rating_key = some k) (h2 : r2.rating_key = some k)
    (h0 : ratingKeyConflict db (some k) = false) :
    insertOrIgnore (insertOrIgnore db r1) r2 = db ++ [r1]
      ∧ countKey (insertOrIgnore (insertOrIgnore db r1) r2) k = 1 := by
  have hins : insertOrIgnore db r1 = db ++ [r1] := by
    simp [insertOrIgnore, h1, h0]
  have hconf : ratingKeyConflict (db ++ [r1]) (some k) = true := by
    simp [ratingKeyConflict, h1]
  have hsecond : insertOrIgnore (insertOrIgnore db r1) r2 = db ++ [r1] := by
    rw [hins]
    simp [insertOrIgnore, h2, hconf]
  refine ⟨hsecond, ?_⟩
  rw [hsecond]
  have hnone : ∀ r ∈ db, ¬ (r.rating_key == some k) = true := by
    simp only [ratingKeyConflict, List.any_eq_false] at h0
    exact h0
  have hfilter : db.filter (fun r => r.rating_key == some k) = [] :=
    List.filter_eq_nil_iff.mpr hnone
  simp [countKey, List.filter_append, hfilter, h1]

/-- Witness for C6: inserting two concrete rows with the same rating_key into
an empty store keeps only the first. -/
theorem record_idempotent_witness :
    insertOrIgnore (insertOrIgnore [] ⟨some "abc", some "Foo", some 1, some 2, 1000⟩)
        ⟨some "abc", some "Bar", some 3, some 4, 5⟩
      = [⟨some "abc", some "Foo", some 1, some 2, 1000⟩]
    ∧ countKey (insertOrIgnore (insertOrIgnore []
          ⟨some "abc", some "Foo", some 1, some 2, 1000⟩)
        ⟨some "abc", some "Bar", some 3, some 4, 5⟩) "abc" = 1 :=
  record_idempotent [] ⟨some "abc", some "Foo", some 1, some 2, 1000⟩
    ⟨some "abc", some "Bar", some 3, some 4, 5⟩ "abc" rfl rfl rfl

/-- C7: an event that is not media.scrobble, or whose media item is not from
a show library section, is acknowledged with the do-nothing response: store
unchanged, no deletion invocation, no remote call. -/
theorem ignored_events_no_effect (cfg : Config) (env : Remote) (now : Int)
    (db : List Row) (p : Payload)
    (h : p.event ≠ some "media.scrobble"
         ∨ (mdOf p).librarySectionType ≠ some "show") :
    webhook cfg env now db (.parsed (some p)) = noEffect db := by
  rcases h with h | h
  · simp [webhook, h]
  · by_cases he : p.event = some "media.scrobble"
    · simp [webhook, he, h]
    · simp [webhook, he]

/-- Witness for C7: a concrete library.new event leaves a concrete store
untouched and triggers nothing. -/
theorem ignored_events_no_effect_witness :
    webhook emptyConfig ⟨.netErr, .netErr, .netErr, .netErr⟩ 7
        [⟨some "k", none, none, none, 3⟩]
        (.parsed (some ⟨some "library.new", none⟩))
      = noEffect [⟨some "k", none, none, none, 3⟩] :=
  ignored_events_no_effect emptyConfig ⟨.netErr, .netErr, .netErr, .netErr⟩ 7
    [⟨some "k", none, none, none, 3⟩] ⟨some "library.new", none⟩
    (Or.inl (by decide))

/-- C10: a qualifying event without a ratingKey stores a NULL rating_key, and
NULLs never conflict under the UNIQUE constraint, so two such events insert
two distinct rows; the insert-or-ignore deduplication applies only to present
keys. -/
theorem null_rating_key_not_deduped (cfg : Config) (env : Remote)
    (now now' : Int) (db : List Row) (p p' : Payload)
    (hev : p.event = some "media.scrobble")
    (hshow : (mdOf p).librarySectionType = some "show")
    (hev' : p'.event = some "media.scrobble")
    (hshow' : (mdOf p').librarySectionType = some "show")
    (hrk : (mdOf p).ratingKey = none) (hrk' : (mdOf p').ratingKey = none) :
    (webhook cfg env now'
        ((webhook cfg env now db (.parsed (some p))).db)
        (.parsed (some p'))).db
      = db ++ [rowOf (mdOf p) now, rowOf (mdOf p') now'] := by
  rw [webhook_db_insert cfg env now' _ p' hev' hshow',
      webhook_db_insert cfg env now db p hev hshow]
  have e1 : insertOrIgnore db (rowOf (mdOf p) now) = db ++ [rowOf (mdOf p) now] := by
    simp [insertOrIgnore, rowOf, hrk, ratingKeyConflict]
  rw [e1]
  simp [insertOrIgnore, rowOf, hrk', ratingKeyConflict]

/-- Witness for C10: two concrete ratingKey-less scrobbles of the same
episode yield two stored rows rather than one. -/
theorem null_rating_key_not_deduped_witness :
    (webhook emptyConfig ⟨.netErr, .netErr, .netErr, .netErr⟩ 6
        ((webhook emptyConfig ⟨.netErr, .netErr, .netErr, .netErr⟩ 5 []
            (.parsed (some ⟨some "media.scrobble",
              some ⟨some "show", some "Foo", some 1, some 2, none, some 1000⟩⟩))).db)
        (.parsed (some ⟨some "media.scrobble",
          some ⟨some "show", some "Foo", some 1, some 2, none, some 1000⟩⟩))).db
      = [⟨none, some "Foo", some 1, some 2, 1000⟩,
         ⟨none, some "Foo", some 1, some 2, 1000⟩] :=
  null_rating_key_not_deduped emptyConfig ⟨.netErr, .netErr, .netErr, .netErr⟩
    5 6 []
    ⟨some "media.scrobble", some ⟨some "show", some "Foo", some 1, some 2, none, some 1000⟩⟩
    ⟨some "media.scrobble", some ⟨some "show", some "Foo", some 1, some 2, none, some 1000⟩⟩
    rfl rfl rfl rfl rfl rfl

/-- Counterexample to C2: with the single override key Foo and the incoming
series name foo, the code's evaluator ignores the differently-cased key and
falls back to the global default, while the spec's exact-then-case-insensitive
resolution would pick the override; there is no case-insensitive fallback in
the code. -/
theorem policy_fallback_cex :
    effective_grace ⟨none, none, none, some [("Foo", [("grace_days", 0)])]⟩ (some "foo")
      ≠ spec_effective_grace ⟨none, none, none, some [("Foo", [("grace_days", 0)])]⟩ (some "foo")
    ∧ effective_grace ⟨none, none, none, some [("Foo", [("grace_days", 0)])]⟩ (some "foo")
        = some 2
    ∧ spec_effective_grace ⟨none, none, none, some [("Foo", [("grace_days", 0)])]⟩ (some "foo")
        = some 0 := by
  refine ⟨?_, by decide, by decide⟩
  decide

/-- C2 amended: override resolution is an exact-match key lookup only.  When
no exact-case key is present, the global default applies even if a
differently-cased key exists; when an exact-case key maps to a nonempty
override object, that object's grace_days is the effective value. -/
theorem policy_exact_match_only (cfg : Config) (s : String) :
    (assocFind (cfg.series_settings.getD []) s = none →
       effective_grace cfg (some s) = some (cfg.grace_days.getD 2))
    ∧ (∀ d, assocFind (cfg.series_settings.getD []) s = some d → d ≠ [] →
       effective_grace cfg (some s) = assocFind d "grace_days") := by
  constructor
  · intro h
    simp [effective_grace, resolve_override, h, override_truthy]
  · intro d hd hne
    cases d with
    | nil => exact absurd rfl hne
    | cons a t => simp [effective_grace, resolve_override, hd, override_truthy]

/-- Witness for the amended C2: the exact-lookup miss on foo yields the
global default 2 although the differently-cased key Foo carries 0. -/
theorem policy_exact_match_only_witness :
    effective_grace ⟨none, none, none, some [("Foo", [("grace_days", 0)])]⟩ (some "foo")
      = some 2 :=
  (policy_exact_match_only ⟨none, none, none, some [("Foo", [("grace_days", 0)])]⟩
    "foo").1 (by decide)

/-- C8: a failed config load, whether the file cannot be read or cannot be
decoded, leaves the active snapshot in place, including the zero-value empty
snapshot of a process that never loaded successfully, logs the failure, and
returns normally. -/
theorem load_config_keeps_snapshot (current : Config) (r : ConfigRead)
    (h : r = ConfigRead.openError ∨ r = ConfigRead.decodeError) :
    (load_config current r).1 = current
      ∧ LogMsg.configLoadFailed ∈ (load_config current r).2 := by
  rcases h with h | h <;> subst h <;> exact ⟨rfl, List.mem_singleton.mpr rfl⟩

/-- Witness for C8: an invalid document keeps the never-loaded empty
snapshot active. -/
theorem load_config_keeps_snapshot_witness :
    (load_config emptyConfig ConfigRead.decodeError).1 = emptyConfig
      ∧ LogMsg.configLoadFailed ∈ (load_config emptyConfig ConfigRead.decodeError).2 :=
  load_config_keeps_snapshot emptyConfig ConfigRead.decodeError (Or.inr rfl)

/-- C4: whatever the remote manager does, down to missing config keys,
network errors, rejected statuses and absent fields, delete_episode returns
normally with its attempted calls and logs, and the watched store seen by the
webhook does not depend on the remote behaviour at all. -/
theorem delete_episode_isolated (cfg : Config) (env env' : Remote)
    (series : Option String) (season episode : Option Int) (now : Int)
    (db : List Row) (req : ParseResult) :
    delete_episode_caught cfg env series season episode
      = Except.ok (delete_episode cfg env series season episode,
                   delete_episode_logs cfg env series season episode)
    ∧ (webhook cfg env now db req).db = (webhook cfg env' now db req).db
    ∧ (∀ e, (delete_episode_run cfg env series season episode).err = some e →
        LogMsg.sonarrError ∈ delete_episode_logs cfg env series season episode) := by
  refine ⟨rfl, ?_, ?_⟩
  · cases req with
    | parseError => rfl
    | parsed o =>
      cases o with
      | none => rfl
      | some p =>
        by_cases he : p.event = some "media.scrobble"
        · by_cases hs : (mdOf p).librarySectionType = some "show"
          · by_cases hg : effective_grace cfg (mdOf p).grandparentTitle = some 0 <;>
              simp [webhook, he, hs, hg]
          · simp [webhook, he, hs]
        · simp [webhook, he]
  · intro e he
    simp [delete_episode_logs, he]

/-- Witness for C4: a configuration without a sonarr section makes the body
raise KeyError at its first line, and the swallowed error is logged. -/
theorem delete_episode_isolated_witness :
    LogMsg.sonarrError ∈ delete_episode_logs emptyConfig
      ⟨NetResult.netErr, NetResult.netErr, NetResult.netErr, NetResult.netErr⟩
      (some "Foo") (some 1) (some 2) :=
  (delete_episode_isolated emptyConfig
      ⟨NetResult.netErr, NetResult.netErr, NetResult.netErr, NetResult.netErr⟩
      ⟨NetResult.netErr, NetResult.netErr, NetResult.netErr, NetResult.netErr⟩
      (some "Foo") (some 1) (some 2) 0 [] ParseResult.parseError).2.2
    DelErr.keyError rfl

/-- With every entry of the list titled and no title matching the requested
name case-insensitively, the series scan is exhausted without an error. -/
theorem findSeries_exhausted (body : List RemoteSeries) (sv : String)
    (hwf : ∀ s ∈ body, s.title.isSome = true)
    (hmiss : ∀ s ∈ body, Option.map lowerStr s.title ≠ some (lowerStr sv)) :
    findSeries body (some sv) = Except.ok none := by
  induction body with
  | nil => rfl
  | cons s rest ih =>
    have hs : s.title.isSome = true := hwf s (List.mem_cons_self s rest)
    obtain ⟨t, ht⟩ := Option.isSome_iff_exists.mp hs
    have hne : lowerStr t ≠ lowerStr sv := by
      have hm := hmiss s (List.mem_cons_self s rest)
      rw [ht] at hm
      simpa using hm
    have hbeq : (lowerStr t == lowerStr sv) = false := beq_eq_false_iff_ne.mpr hne
    simp only [findSeries, ht, hbeq, Bool.false_eq_true, if_false]
    exact ih (fun x hx => hwf x (List.mem_cons_of_mem s hx))
      (fun x hx => hmiss x (List.mem_cons_of_mem s hx))

/-- C9: when the fetched series list contains no entry whose title equals the
requested series case-insensitively, the workflow logs the not-found warning
and returns after the single series fetch: no episode fetch, no file delete,
no unmonitor, and no error. -/
theorem series_not_found_stops (cfg : Config) (env : Remote) (sv : String)
    (season episode : Option Int) (u k : String) (st : Nat)
    (body : List RemoteSeries)
    (hcfg : cfg.sonarr = some ⟨some u, some k⟩)
    (henv : env.seriesRes = NetResult.resp st body) (hst : st < 400)
    (hwf : ∀ s ∈ body, s.title.isSome = true)
    (hmiss : ∀ s ∈ body, Option.map lowerStr s.title ≠ some (lowerStr sv)) :
    delete_episode_run cfg env (some sv) season episode
      = ⟨[RemoteCall.getSeries], [LogMsg.seriesNotFound (some sv)], none⟩ := by
  have hfind := findSeries_exhausted body sv hwf hmiss
  have h400 : ¬ (400 ≤ st) := by omega
  simp [delete_episode_run, hcfg, henv, h400, hfind]

/-- Witness for C9: a concrete list holding only the series Bar makes the
lookup for Foo stop with a warning after one remote call. -/
theorem series_not_found_stops_witness :
    delete_episode_run
        ⟨some ⟨some "u", some "k"⟩, none, none, none⟩
        ⟨NetResult.resp 200 [⟨some "Bar", some 1⟩],
         NetResult.netErr, NetResult.netErr, NetResult.netErr⟩
        (some "Foo") (some 1) (some 2)
      = ⟨[RemoteCall.getSeries], [LogMsg.seriesNotFound (some "Foo")], none⟩ :=
  series_not_found_stops
    ⟨some ⟨some "u", some "k"⟩, none, none, none⟩
    ⟨NetResult.resp 200 [⟨some "Bar", some 1⟩],
     NetResult.netErr, NetResult.netErr, NetResult.netErr⟩
    "Foo" (some 1) (some 2) "u" "k" 200 [⟨some "Bar", some 1⟩]
    rfl rfl (by omega) (by decide) (by decide)

/-- Counterexample to C5: the episode-file DELETE answers 500, a non-2xx
failure, yet the workflow does not abort at that step: the unmonitor PUT is
still attempted afterwards, because the code never status-checks the DELETE
response. -/
theorem failed_delete_does_not_abort_cex :
    (⟨NetResult.resp 200 [⟨some "Foo", some 5⟩],
      NetResult.resp 200 [⟨some 1, some 2, some true, some 9, some 7⟩],
      NetResult.resp 500 (), NetResult.resp 200 ()⟩ : Remote).deleteRes
        = NetResult.resp 500 ()
    ∧ delete_episode ⟨some ⟨some "u", some "k"⟩, none, none, none⟩
        ⟨NetResult.resp 200 [⟨some "Foo", some 5⟩],
         NetResult.resp 200 [⟨some 1, some 2, some true, some 9, some 7⟩],
         NetResult.resp 500 (), NetResult.resp 200 ()⟩
        (some "Foo") (some 1) (some 2)
      = [RemoteCall.getSeries, RemoteCall.getEpisodes 5,
         RemoteCall.deleteFile 9, RemoteCall.putEpisode 7] := by
  exact ⟨rfl, by decide⟩

/-- A series-list fetch that raises, either from the network or from
raise_for_status, leaves the series GET as the only attempted call. -/
theorem calls_after_series_fail (cfg : Config) (env : Remote)
    (series : Option String) (season episode : Option Int)
    (h : isHttpFail env.seriesRes = true) :
    delete_episode cfg env series season episode ⊆ [RemoteCall.getSeries] := by
  unfold delete_episode delete_episode_run
  cases hc : cfg.sonarr with
  | none => simp [hc]
  | some sc =>
    cases hk : sc.api_key with
    | none => simp [hc, hk]
    | some k =>
      cases hu : sc.url with
      | none => simp [hc, hk, hu]
      | some u =>
        cases hs : env.seriesRes with
        | netErr => simp [hc, hk, hu, hs, List.Subset.refl]
        | resp st body =>
          rw [hs] at h
          simp only [isHttpFail] at h
          have h4 : 400 ≤ st := of_decide_eq_true h
          simp [hc, hk, hu, hs, h4, List.Subset.refl]

/-- An episode-list fetch that raises leaves only the two GETs attempted: no
file delete and no unmonitor can follow it. -/
theorem calls_after_episodes_fail (cfg : Config) (env : Remote)
    (series : Option String) (season episode : Option Int)
    (h : isHttpFail env.episodesRes = true) :
    ∀ c ∈ delete_episode cfg env series season episode,
      c = RemoteCall.getSeries ∨ ∃ i, c = RemoteCall.getEpisodes i := by
  unfold delete_episode delete_episode_run
  cases hc : cfg.sonarr with
  | none => simp [hc]
  | some sc =>
    cases hk : sc.api_key with
    | none => simp [hc, hk]
    | some k =>
      cases hu : sc.url with
      | none => simp [hc, hk, hu]
      | some u =>
        cases hs : env.seriesRes with
        | netErr =>
          intro c hcm
          simp [hc, hk, hu, hs] at hcm
          subst hcm
          exact Or.inl rfl
        | resp st body =>
          by_cases h4 : 400 ≤ st
          · intro c hcm
            simp [hc, hk, hu, hs, h4] at hcm
            subst hcm
            exact Or.inl rfl
          · cases hf : findSeries body series with
            | error e =>
              intro c hcm
              simp [hc, hk, hu, hs, h4, hf] at hcm
              subst hcm
              exact Or.inl rfl
            | ok o =>
              cases o with
              | none =>
                intro c hcm
                simp [hc, hk, hu, hs, h4, hf] at hcm
                subst hcm
                exact Or.inl rfl
              | some ms =>
                cases hid : ms.id with
                | none =>
                  intro c hcm
                  simp [hc, hk, hu, hs, h4, hf, hid] at hcm
                  subst hcm
                  exact Or.inl rfl
                | some sid =>
                  cases he : env.episodesRes with
                  | netErr =>
                    intro c hcm
                    simp [hc, hk, hu, hs, h4, hf, hid, he] at hcm
                    rcases hcm with rfl | rfl
                    · exact Or.inl rfl
                    · exact Or.inr ⟨sid, rfl⟩
                  | resp st2 eps =>
                    rw [he] at h
                    simp only [isHttpFail] at h
                    have h42 : 400 ≤ st2 := of_decide_eq_true h
                    intro c hcm
                    simp [hc, hk, hu, hs, h4, hf, hid, he, h42] at hcm
                    rcases hcm with rfl | rfl
                    · exact Or.inl rfl
                    · exact Or.inr ⟨sid, rfl⟩

/-- When the delete request raises a network error, the raise aborts the
workflow: if the file delete was attempted, the unmonitor PUT never is. -/
theorem no_put_after_delete_raise (cfg : Config) (env : Remote)
    (series : Option String) (season episode : Option Int)
    (h : env.deleteRes = NetResult.netErr) :
    ∀ f, RemoteCall.deleteFile f ∈ delete_episode cfg env series season episode →
      ∀ e, RemoteCall.putEpisode e ∉ delete_episode cfg env series season episode := by
  unfold delete_episode delete_episode_run
  cases hc : cfg.sonarr with
  | none => simp [hc]
  | some sc =>
    cases hk : sc.api_key with
    | none => simp [hc, hk]
    | some k =>
      cases hu : sc.url with
      | none => simp [hc, hk, hu]
      | some u =>
        cases hs : env.seriesRes with
        | netErr => simp [hc, hk, hu, hs]
        | resp st body =>
          by_cases h4 : 400 ≤ st
          · simp [hc, hk, hu, hs, h4]
          · cases hf : findSeries body series with
            | error e => simp [hc, hk, hu, hs, h4, hf]
            | ok o =>
              cases o with
              | none => simp [hc, hk, hu, hs, h4, hf]
              | some ms =>
                cases hid : ms.id with
                | none => simp [hc, hk, hu, hs, h4, hf, hid]
                | some sid =>
                  cases he : env.episodesRes with
                  | netErr => simp [hc, hk, hu, hs, h4, hf, hid, he]
                  | resp st2 eps =>
                    by_cases h42 : 400 ≤ st2
                    · simp [hc, hk, hu, hs, h4, hf, hid, he, h42]
                    · cases hep : findEpisode eps season episode with
                      | error e => simp [hc, hk, hu, hs, h4, hf, hid, he, h42, hep]
                      | ok o2 =>
                        cases o2 with
                        | none => simp [hc, hk, hu, hs, h4, hf, hid, he, h42, hep]
                        | some m =>
                          cases hhf : m.hasFile.getD false with
                          | true =>
                            cases hfid : m.episodeFileId with
                            | none =>
                              simp [deletePhase, hc, hk, hu, hs, h4, hf, hid, he,
                                    h42, hep, hhf, hfid]
                            | some fid =>
                              simp [deletePhase, hc, hk, hu, hs, h4, hf, hid, he,
                                    h42, hep, hhf, hfid, h]
                          | false =>
                            cases hum : cfg.unmonitor_after_delete.getD true with
                            | true =>
                              cases hmid : m.id with
                              | none =>
                                simp [deletePhase, hc, hk, hu, hs, h4, hf, hid, he,
                                      h42, hep, hhf, hum, hmid]
                              | some eid =>
                                cases hp : env.putRes with
                                | netErr =>
                                  simp [deletePhase, hc, hk, hu, hs, h4, hf, hid,
                                        he, h42, hep, hhf, hum, hmid, hp]
                                | resp st3 b3 =>
                                  simp [deletePhase, hc, hk, hu, hs, h4, hf, hid,
                                        he, h42, hep, hhf, hum, hmid, hp]
                            | false =>
                              simp [deletePhase, hc, hk, hu, hs, h4, hf, hid, he,
                                    h42, hep, hhf, hum]

/-- C5 amended: a network error at any step aborts the workflow at that step,
and raise_for_status makes a 4xx or 5xx answer to either GET abort as well;
but the episode-file DELETE response is never status-checked, so a non-2xx
DELETE does not abort and the unmonitor PUT is still attempted after it. -/
theorem deletion_abort_behaviour (cfg : Config) (env : Remote)
    (series : Option String) (season episode : Option Int) :
    (isHttpFail env.seriesRes = true →
       delete_episode cfg env series season episode ⊆ [RemoteCall.getSeries])
    ∧ (isHttpFail env.episodesRes = true →
       ∀ c ∈ delete_episode cfg env series season episode,
         c = RemoteCall.getSeries ∨ ∃ i, c = RemoteCall.getEpisodes i)
    ∧ (env.deleteRes = NetResult.netErr →
       ∀ f, RemoteCall.deleteFile f ∈ delete_episode cfg env series season episode →
         ∀ e, RemoteCall.putEpisode e ∉ delete_episode cfg env series season episode) :=
  ⟨calls_after_series_fail cfg env series season episode,
   calls_after_episodes_fail cfg env series season episode,
   no_put_after_delete_raise cfg env series season episode⟩

/-- Witness for the amended C5, at three concrete remote behaviours: a series
fetch that raises stops after one call, an episode fetch answered 500 stops
after the two GETs, and a delete that raises a network error prevents the
unmonitor PUT. -/
theorem deletion_abort_behaviour_witness :
    (delete_episode ⟨some ⟨some "u", some "k"⟩, none, none, none⟩
        ⟨NetResult.netErr, NetResult.netErr, NetResult.netErr, NetResult.netErr⟩
        (some "Foo") (some 1) (some 2) ⊆ [RemoteCall.getSeries])
    ∧ (∀ c ∈ delete_episode ⟨some ⟨some "u", some "k"⟩, none, none, none⟩
          ⟨NetResult.resp 200 [⟨some "Foo", some 5⟩], NetResult.resp 500 [],
           NetResult.netErr, NetResult.netErr⟩
          (some "Foo") (some 1) (some 2),
        c = RemoteCall.getSeries ∨ ∃ i, c = RemoteCall.getEpisodes i)
    ∧ (∀ f, RemoteCall.deleteFile f ∈ delete_episode
          ⟨some ⟨some "u", some "k"⟩, none, none, none⟩
          ⟨NetResult.resp 200 [⟨some "Foo", some 5⟩],
           NetResult.resp 200 [⟨some 1, some 2, some true, some 9, some 7⟩],
           NetResult.netErr, NetResult.resp 200 ()⟩
          (some "Foo") (some 1) (some 2) →
        ∀ e, RemoteCall.putEpisode e ∉ delete_episode
          ⟨some ⟨some "u", some "k"⟩, none, none, none⟩
          ⟨NetResult.resp 200 [⟨some "Foo", some 5⟩],
           NetResult.resp 200 [⟨some 1, some 2, some true, some 9, some 7⟩],
           NetResult.netErr, NetResult.resp 200 ()⟩
          (some "Foo") (some 1) (some 2)) :=
  ⟨(deletion_abort_behaviour ⟨some ⟨some "u", some "k"⟩, none, none, none⟩
      ⟨NetResult.netErr, NetResult.netErr, NetResult.netErr, NetResult.netErr⟩
      (some "Foo") (some 1) (some 2)).1 rfl,
   (deletion_abort_behaviour ⟨some ⟨some "u", some "k"⟩, none, none, none⟩
      ⟨NetResult.resp 200 [⟨some "Foo", some 5⟩], NetResult.resp 500 [],
       NetResult.netErr, NetResult.netErr⟩
      (some "Foo") (some 1) (some 2)).2.1 rfl,
   (deletion_abort_behaviour ⟨some ⟨some "u", some "k"⟩, none, none, none⟩
      ⟨NetResult.resp 200 [⟨some "Foo", some 5⟩],
       NetResult.resp 200 [⟨some 1, some 2, some true, some 9, some 7⟩],
       NetResult.netErr, NetResult.resp 200 ()⟩
      (some "Foo") (some 1) (some 2)).2.2 rfl⟩
